import Mathlib

/-!
Verification of the start-streaming library against its specification.

Shallow embedding of the core components of the library:
* `Jitter` — `src/utils/jitter.ts` and `src/utils/exponentialBackoff.ts`
  (pure backoff / jitter calculators, modelled over `ℚ` with the random
  factor `u` of `Math.random() * 2 - 1` made an explicit parameter);
* `Events` — `src/server/events.ts` (`createMemoryBroadcaster`):
  subscriptions are modelled as explicit state machines mirroring the
  JavaScript async-generator semantics (the generator body — and hence the
  `emitter.on` registration — runs only at the first `next()` call);
* `ChannelManager` — `src/server/channel-manager.ts`
  (`createSSEChannelManager`): channel identity is modelled by a fresh
  numeric id drawn from a counter, so "same instance" is id equality;
* `ReactQuery` — `src/client/hooks/useSSEQueryInvalidation.ts`
  (the invalidation-call computation of the `onEvent` handler);
* `AutoReconnect` — `src/client/hooks/useAutoReconnectStream.ts`
  (the reconnection state machine: React state + refs flattened into one
  record, callbacks recorded in an observation log, timers abstracted to
  an armed/not-armed flag fired by the driver).
-/

namespace Jitter

/-- Source `addJitter(delay, jitterPercent)` from `src/utils/jitter.ts`:
`Math.round(delay + delay * jitterPercent * (Math.random() * 2 - 1))`.
The random factor `Math.random() * 2 - 1` is the explicit parameter `u`.
The Mathlib `round` rounds half up, exactly like JavaScript `Math.round`. -/
def addJitter (delay jitterPercent u : ℚ) : ℤ :=
  round (delay + delay * jitterPercent * u)

/-- Source `calculateBackoff` from `src/utils/exponentialBackoff.ts`:
`Math.min(baseDelay * 2 ** attempt, maxDelay)`. -/
def calculateBackoff (attempt : ℕ) (baseDelay maxDelay : ℚ) : ℚ :=
  min (baseDelay * 2 ^ attempt) maxDelay

/-- Source `calculateBackoffWithJitter` from `src/utils/jitter.ts`: the capped
exponential delay, then jitter — the cap is applied before the jitter. -/
def calculateBackoffWithJitter (attempt : ℕ) (baseDelay maxDelay jitterPercent u : ℚ) : ℤ :=
  addJitter (min (baseDelay * 2 ^ attempt) maxDelay) jitterPercent u

theorem round_le_round_of_le {x y : ℚ} (h : x ≤ y) : round x ≤ round y := by
  rw [round_eq, round_eq]
  exact Int.floor_le_floor (by linarith)

/-- C7: with `c = min(baseDelay * 2^attempt, maxDelay)` and `u ∈ [-1, 1]`,
`calculateBackoffWithJitter` applies the cap before the jitter: the result
equals `round (c + c * p * u)` (an integer by construction), lies in
`[round (c * (1 - p)), round (c * (1 + p))]`, is bounded by
`round (maxDelay * (1 + p))` — i.e. it may exceed `maxDelay` by at most
`p * maxDelay` — and with `p = 0` it is exactly `round c`. -/
theorem calculateBackoffWithJitter_spec (attempt : ℕ) (baseDelay maxDelay p u : ℚ)
    (hb : 0 < baseDelay) (hm : 0 < maxDelay) (hp0 : 0 ≤ p) (_hp1 : p ≤ 1)
    (hu1 : -1 ≤ u) (hu2 : u ≤ 1) :
    calculateBackoffWithJitter attempt baseDelay maxDelay p u
      = round (calculateBackoff attempt baseDelay maxDelay
          + calculateBackoff attempt baseDelay maxDelay * p * u)
    ∧ round (calculateBackoff attempt baseDelay maxDelay * (1 - p))
        ≤ calculateBackoffWithJitter attempt baseDelay maxDelay p u
    ∧ calculateBackoffWithJitter attempt baseDelay maxDelay p u
        ≤ round (calculateBackoff attempt baseDelay maxDelay * (1 + p))
    ∧ calculateBackoffWithJitter attempt baseDelay maxDelay p u
        ≤ round (maxDelay * (1 + p))
    ∧ (p = 0 →
        calculateBackoffWithJitter attempt baseDelay maxDelay p u
          = round (calculateBackoff attempt baseDelay maxDelay)) := by
  have hcpos : 0 < calculateBackoff attempt baseDelay maxDelay := by
    have h2 : (0 : ℚ) < baseDelay * 2 ^ attempt :=
      mul_pos hb (pow_pos (by norm_num) attempt)
    exact lt_min h2 hm
  have heq : calculateBackoffWithJitter attempt baseDelay maxDelay p u
      = round (calculateBackoff attempt baseDelay maxDelay
          + calculateBackoff attempt baseDelay maxDelay * p * u) := rfl
  have hcmax : calculateBackoff attempt baseDelay maxDelay ≤ maxDelay :=
    min_le_right _ _
  generalize hg : calculateBackoff attempt baseDelay maxDelay = c at *
  have hlo : c * (1 - p) ≤ c + c * p * u := by
    nlinarith [mul_nonneg (mul_nonneg hcpos.le hp0) (show (0:ℚ) ≤ 1 + u by linarith)]
  have hhi : c + c * p * u ≤ c * (1 + p) := by
    nlinarith [mul_nonneg (mul_nonneg hcpos.le hp0) (show (0:ℚ) ≤ 1 - u by linarith)]
  refine ⟨heq, ?_, ?_, ?_, ?_⟩
  · rw [heq]
    exact round_le_round_of_le hlo
  · rw [heq]
    exact round_le_round_of_le hhi
  · rw [heq]
    refine le_trans (round_le_round_of_le hhi) (round_le_round_of_le ?_)
    nlinarith
  · intro hp
    rw [heq, hp]
    norm_num

/-- Witness for C7 at `attempt = 10`, `baseDelay = 1000`, `maxDelay = 10000`,
`p = 1/4`, `u = 1`: the capped delay is `10000` and the jittered result is
`12500`, exceeding `maxDelay` by `p * maxDelay = 2500`. -/
theorem calculateBackoffWithJitter_spec_witness :
    calculateBackoffWithJitter 10 1000 10000 (1/4) 1 = 12500
    ∧ (round (calculateBackoff 10 1000 10000 * (1 - 1/4))
          ≤ calculateBackoffWithJitter 10 1000 10000 (1/4) 1
        ∧ calculateBackoffWithJitter 10 1000 10000 (1/4) 1
          ≤ round (calculateBackoff 10 1000 10000 * (1 + 1/4))
        ∧ calculateBackoffWithJitter 10 1000 10000 (1/4) 1
          ≤ round ((10000 : ℚ) * (1 + 1/4))
        ∧ ((1/4 : ℚ) = 0 →
            calculateBackoffWithJitter 10 1000 10000 (1/4) 1
              = round (calculateBackoff 10 1000 10000))) := by
  have h := calculateBackoffWithJitter_spec 10 1000 10000 (1/4) 1
    (by norm_num) (by norm_num) (by norm_num) (by norm_num) (by norm_num) (by norm_num)
  refine ⟨?_, h.2⟩
  have hc : calculateBackoff 10 1000 10000 = (10000 : ℚ) := by
    norm_num [calculateBackoff]
  rw [h.1, hc]
  norm_num

end Jitter

namespace Events

/-!
Model of `createMemoryBroadcaster` from `src/server/events.ts`.

Each call to `subscribe(channel)` creates a JavaScript async generator.
Its body — `emitter.on(channel, listener)`, the queue loop, and the
`finally` block running `emitter.off(channel, listener)` — starts running
only when the consumer awaits the first `next()` of the generator.  A
subscription is therefore a three-phase state machine:
`notStarted` (generator created, body not yet entered, no listener
registered) → `active` (listener registered, `queue` holds pending
events) → `closed` (`finally` ran, listener removed).  The payload type is
`ℕ` with JavaScript truthiness `n ≠ 0` (the loop body guards the yield
with `if (event)`, a truthiness test on the shifted value).
-/

inductive SubPhase where
  | notStarted
  | active
  | closed
deriving DecidableEq

structure Subsc where
  topic : String
  phase : SubPhase
  queue : List ℕ
deriving DecidableEq

/-- The observable state of the broadcaster: the subscriptions created so far,
in creation order (the index is the identity of the subscription). -/
structure BState where
  subs : List Subsc
deriving DecidableEq

/-- List `l` with the element at index `i` replaced by `f` of it (identity when
`i` is out of range). -/
def modifyAt (l : List Subsc) (i : ℕ) (f : Subsc → Subsc) : List Subsc :=
  match l, i with
  | [], _ => []
  | a :: as, 0 => f a :: as
  | a :: as, Nat.succ n => a :: modifyAt as n f

/-- Calling `subscribe(topic)`: the generator object is created but its
body has not run, so no listener is registered yet. -/
def subscribeOp (b : BState) (t : String) : BState :=
  ⟨b.subs ++ [⟨t, SubPhase.notStarted, []⟩]⟩

/-- The first `next()` on the generator: the body starts, running
`emitter.on(channel, listener)`; the queue starts empty and the consumer
parks awaiting an event.  A later `next()` on an already started or closed
generator does not re-register. -/
def startSub (b : BState) (i : ℕ) : BState :=
  ⟨modifyAt b.subs i (fun s =>
    if s.phase = SubPhase.notStarted then { s with phase := SubPhase.active } else s)⟩

/-- Source `publish(channel, data)`: `emitter.emit` invokes every registered
listener on the channel; each listener pushes the event onto its
queue of its subscription.  Subscriptions that are not started (no listener
registered) or closed receive nothing; with no listener at all the call is
a no-op.  Total: never throws. -/
def publish (b : BState) (t : String) (x : ℕ) : BState :=
  ⟨b.subs.map (fun s =>
    if s.phase = SubPhase.active ∧ s.topic = t
    then { s with queue := s.queue ++ [x] } else s)⟩

/-- A subscription holds a registered listener for channel `t`. -/
def listensTo (t : String) (s : Subsc) : Bool :=
  decide (s.phase = SubPhase.active ∧ s.topic = t)

/-- Source `getListenerCount(channel)`: `emitter.listenerCount`, the number of
currently registered (started, unclosed) listeners for the channel. -/
def getListenerCount (b : BState) (t : String) : ℕ :=
  b.subs.countP (listensTo t)

/-- Closing the generator (`subscription.return()` / consumer stops
iterating): on a started generator the `finally` block runs
`emitter.off(channel, listener)` exactly once; on a not-yet-started
generator the body (and its `finally`) never runs, and on an already
closed one nothing happens again. -/
def closeSub (b : BState) (i : ℕ) : BState :=
  ⟨modifyAt b.subs i (fun s => { s with phase := SubPhase.closed })⟩

/-- JavaScript truthiness for the numeric payload: `0` is falsy. -/
def jsTruthy (n : ℕ) : Bool := n != 0

/-- One await of `next()` on an active subscription, mirroring the loop
`while (true) { if (queue.length > 0) { const event = queue.shift();
if (event) yield event; } else { await ... } }`: shift entries until a
truthy one is yielded; on an empty queue the consumer suspends (`none`).
A falsy entry is shifted off and never yielded. -/
def pullNext : List ℕ → Option ℕ × List ℕ
  | [] => (none, [])
  | x :: rest => if jsTruthy x then (some x, rest) else pullNext rest

/-- Repeatedly awaiting `next()` until the queue is exhausted: the values
this subscription ever yields from queue `q`. -/
def drain : List ℕ → List ℕ
  | [] => []
  | x :: rest => if jsTruthy x then x :: drain rest else drain rest

theorem drain_eq_filter (q : List ℕ) : drain q = q.filter jsTruthy := by
  induction q with
  | nil => rfl
  | cons x rest ih =>
    by_cases hx : jsTruthy x
    · simp [drain, hx, List.filter, ih]
    · simp only [Bool.not_eq_true] at hx
      simp [drain, hx, List.filter, ih]

theorem get?_modifyAt_self (l : List Subsc) (i : ℕ) (f : Subsc → Subsc) :
    (modifyAt l i f).get? i = (l.get? i).map f := by
  induction l generalizing i with
  | nil => cases i <;> rfl
  | cons a as ih =>
    cases i with
    | zero => rfl
    | succ n => simpa [modifyAt] using ih n

theorem countP_modifyAt (l : List Subsc) (i : ℕ) (f : Subsc → Subsc) (s : Subsc)
    (h : l.get? i = some s) (p : Subsc → Bool) :
    (modifyAt l i f).countP p + (if p s then 1 else 0)
      = l.countP p + (if p (f s) then 1 else 0) := by
  induction l generalizing i with
  | nil => simp at h
  | cons a as ih =>
    cases i with
    | zero =>
      have ha : a = s := by simpa using h
      subst ha
      simp only [modifyAt, List.countP_cons]
      by_cases h1 : p a <;> by_cases h2 : p (f a) <;> simp [h1, h2]
    | succ n =>
      have h' : as.get? n = some s := by simpa using h
      have := ih n h'
      simp only [modifyAt, List.countP_cons]
      by_cases h1 : p a <;> simp [h1] <;> omega

theorem modifyAt_congr (l : List Subsc) (i : ℕ) (f g : Subsc → Subsc)
    (h : ∀ s, f s = g s) : modifyAt l i f = modifyAt l i g := by
  induction l generalizing i with
  | nil => rfl
  | cons a as ih =>
    cases i with
    | zero => simp [modifyAt, h a]
    | succ n => simp [modifyAt, ih n]

theorem modifyAt_modifyAt (l : List Subsc) (i : ℕ) (f g : Subsc → Subsc) :
    modifyAt (modifyAt l i f) i g = modifyAt l i (fun s => g (f s)) := by
  induction l generalizing i with
  | nil => cases i <;> rfl
  | cons a as ih =>
    cases i with
    | zero => rfl
    | succ n => simp [modifyAt, ih n]

theorem get?_publish (b : BState) (t : String) (x : ℕ) (i : ℕ) :
    (publish b t x).subs.get? i
      = (b.subs.get? i).map (fun s =>
          if s.phase = SubPhase.active ∧ s.topic = t
          then { s with queue := s.queue ++ [x] } else s) := by
  simp [publish]

/-- C10: `subscribe(topic)` does not by itself register a listener: the
listener count is unchanged by `subscribe`; an event published after
`subscribe` but before the first `next()` is never enqueued for that
subscription (its queue stays empty, so the event is never delivered to
it); the listener is attached at the first `next()` (listener count goes
up by one); closing a started generator removes its listener exactly once
(count goes down by one), and a second close is a no-op (closing is
idempotent on the broadcaster state). -/
theorem subscribe_lazy_listener (b : BState) (t t' : String) (x : ℕ) (i : ℕ) (s : Subsc) :
    getListenerCount (subscribeOp b t) t' = getListenerCount b t'
    ∧ (publish (subscribeOp b t) t x).subs.get? b.subs.length
        = some ⟨t, SubPhase.notStarted, []⟩
    ∧ (b.subs.get? i = some s → s.phase = SubPhase.notStarted →
        (publish b t x).subs.get? i = some s)
    ∧ (b.subs.get? i = some s → s.phase = SubPhase.notStarted →
        getListenerCount (startSub b i) s.topic = getListenerCount b s.topic + 1)
    ∧ (b.subs.get? i = some s → s.phase = SubPhase.active →
        getListenerCount (closeSub b i) s.topic + 1 = getListenerCount b s.topic)
    ∧ closeSub (closeSub b i) i = closeSub b i := by
  refine ⟨?_, ?_, ?_, ?_, ?_, ?_⟩
  · simp [getListenerCount, subscribeOp, List.countP_append, List.countP_cons, listensTo]
  · rw [get?_publish]
    have hlen : (subscribeOp b t).subs.get? b.subs.length
        = some ⟨t, SubPhase.notStarted, []⟩ := by
      simp [subscribeOp]
    rw [hlen]
    simp
  · intro h hns
    rw [get?_publish, h]
    simp [hns]
  · intro h hns
    have hcnt := countP_modifyAt b.subs i
      (fun s => if s.phase = SubPhase.notStarted then { s with phase := SubPhase.active } else s)
      s h (listensTo s.topic)
    have h1 : listensTo s.topic s = false := by simp [listensTo, hns]
    have h2 : listensTo s.topic
        (if s.phase = SubPhase.notStarted then { s with phase := SubPhase.active } else s)
        = true := by simp [listensTo, hns]
    rw [h1, h2] at hcnt
    simp only [getListenerCount, startSub]
    simp at hcnt
    omega
  · intro h hact
    have hcnt := countP_modifyAt b.subs i
      (fun s => { s with phase := SubPhase.closed }) s h (listensTo s.topic)
    have h1 : listensTo s.topic s = true := by simp [listensTo, hact]
    have h2 : listensTo s.topic { s with phase := SubPhase.closed } = false := by
      simp [listensTo]
    rw [h1, h2] at hcnt
    simp only [getListenerCount, closeSub]
    simp at hcnt
    omega
  · simp only [closeSub, modifyAt_modifyAt]

/-- Witness for C10 on a concrete broadcaster: one subscription on topic
"t" in each phase of interest. -/
theorem subscribe_lazy_listener_witness :
    (publish (BState.mk [⟨"t", SubPhase.notStarted, []⟩]) "t" 5).subs.get? 0
        = some ⟨"t", SubPhase.notStarted, []⟩
    ∧ getListenerCount (startSub (BState.mk [⟨"t", SubPhase.notStarted, []⟩]) 0) "t"
        = getListenerCount (BState.mk [⟨"t", SubPhase.notStarted, []⟩]) "t" + 1
    ∧ getListenerCount (closeSub (BState.mk [⟨"t", SubPhase.active, []⟩]) 0) "t" + 1
        = getListenerCount (BState.mk [⟨"t", SubPhase.active, []⟩]) "t" := by
  refine ⟨?_, ?_, ?_⟩
  · exact (subscribe_lazy_listener (BState.mk [⟨"t", SubPhase.notStarted, []⟩]) "t" "t" 5 0
      ⟨"t", SubPhase.notStarted, []⟩).2.2.1 rfl rfl
  · exact (subscribe_lazy_listener (BState.mk [⟨"t", SubPhase.notStarted, []⟩]) "t" "t" 5 0
      ⟨"t", SubPhase.notStarted, []⟩).2.2.2.1 rfl rfl
  · exact (subscribe_lazy_listener (BState.mk [⟨"t", SubPhase.active, []⟩]) "t" "t" 5 0
      ⟨"t", SubPhase.active, []⟩).2.2.2.2.1 rfl rfl

/-- C2 fails on the code: a published falsy payload is dropped.  With one
active subscription on topic "t", `publish("t", 0)` enqueues `0`, but the
consumer, awaiting `next()`, shifts it off the queue and — because of the
`if (event)` truthiness guard in the subscribe loop — never yields it: the
subscription yields `0` zero times, not exactly once.  (Publish with zero
subscribers is indeed a no-op, and truthy values are delivered FIFO:
`drain` of the queue is the published order filtered by truthiness.) -/
theorem publish_falsy_event_dropped :
    publish (BState.mk []) "t" 0 = BState.mk []
    ∧ publish (BState.mk [⟨"t", SubPhase.active, []⟩]) "t" 0
        = BState.mk [⟨"t", SubPhase.active, [0]⟩]
    ∧ pullNext [0] = (none, [])
    ∧ drain [0] = []
    ∧ drain [1, 0, 2] = [1, 2] := by
  refine ⟨rfl, ?_, rfl, rfl, rfl⟩
  simp [publish]

end Events

namespace ChannelManager

/-!
Model of `createSSEChannelManager` from `src/server/channel-manager.ts`.

A better-sse `Channel` object is modelled by a record carrying a numeric
`id` — two channels are "the same instance" exactly when their ids are
equal — and its `activeSessions` list.  The closure state of the manager is the
`channels` map (an association list keyed by the composite channel key)
plus the fresh-id counter used to mint new instances.
-/

structure SChannel where
  id : ℕ
  sessions : List ℕ
deriving DecidableEq

structure CMConfig where
  pre : String
  suf : String

structure CMState where
  channels : List (String × SChannel)
  nextId : ℕ
deriving DecidableEq

/-- Source `buildChannelKey`: `[keyPrefix, resourceId, keySuffix].filter(Boolean).join(":")`
(empty segments are falsy and dropped). -/
def buildChannelKey (cfg : CMConfig) (resourceId : String) : String :=
  String.intercalate ":" (([cfg.pre, resourceId, cfg.suf]).filter (fun s => !(s == "")))

/-- Source `channels.get(channelKey)`. -/
def findChannel (st : CMState) (key : String) : Option SChannel :=
  (st.channels.find? (fun p => p.1 == key)).map (fun p => p.2)

/-- Source `getChannel(resourceId)`: return the existing channel for the key, or
create a fresh instance (a fresh id) and store it. -/
def getChannel (cfg : CMConfig) (st : CMState) (resourceId : String) : SChannel × CMState :=
  let key := buildChannelKey cfg resourceId
  match findChannel st key with
  | some ch => (ch, st)
  | none =>
      let ch : SChannel := ⟨st.nextId, []⟩
      (ch, ⟨st.channels ++ [(key, ch)], st.nextId + 1⟩)

/-- Source `getSessionCount(resourceId)`: `channel?.activeSessions.length ?? 0`,
looking the key up without creating a channel. -/
def getSessionCount (cfg : CMConfig) (st : CMState) (resourceId : String) : ℕ :=
  match findChannel st (buildChannelKey cfg resourceId) with
  | some ch => ch.sessions.length
  | none => 0

/-- Source `cleanupIfEmpty(resourceId)`: delete the channel from the map only when
it exists and `activeSessions.length === 0`; otherwise do nothing.  Total:
never throws. -/
def cleanupIfEmpty (cfg : CMConfig) (st : CMState) (resourceId : String) : CMState :=
  let key := buildChannelKey cfg resourceId
  match findChannel st key with
  | some ch =>
      if ch.sessions.length = 0
      then ⟨st.channels.filter (fun p => !(p.1 == key)), st.nextId⟩
      else st
  | none => st

/-- Every stored channel id is below the fresh-id counter (true of every
state the manager can reach, since ids are minted from the counter). -/
def Wf (st : CMState) : Prop := ∀ p ∈ st.channels, p.2.id < st.nextId

theorem findChannel_filter_ne (st : CMState) (key : String) :
    findChannel ⟨st.channels.filter (fun p => !(p.1 == key)), st.nextId⟩ key = none := by
  have hfind : (st.channels.filter (fun p => !(p.1 == key))).find? (fun p => p.1 == key)
      = none := by
    rw [List.find?_eq_none]
    intro p hp
    have := List.of_mem_filter hp
    simpa using this
  simp [findChannel, hfind]

theorem getChannel_of_some (cfg : CMConfig) (st : CMState) (rid : String) (ch : SChannel)
    (h : findChannel st (buildChannelKey cfg rid) = some ch) :
    getChannel cfg st rid = (ch, st) := by
  simp [getChannel, h]

/-- The state created by `getChannel` on a missing key. -/
def freshState (cfg : CMConfig) (st : CMState) (rid : String) : CMState :=
  ⟨st.channels ++ [(buildChannelKey cfg rid, ⟨st.nextId, []⟩)], st.nextId + 1⟩

theorem getChannel_of_none (cfg : CMConfig) (st : CMState) (rid : String)
    (h : findChannel st (buildChannelKey cfg rid) = none) :
    getChannel cfg st rid = (⟨st.nextId, []⟩, freshState cfg st rid) := by
  simp [getChannel, h, freshState]

theorem find?_of_findChannel_none (st : CMState) (key : String)
    (h : findChannel st key = none) :
    st.channels.find? (fun p => p.1 == key) = none := by
  simp only [findChannel] at h
  cases hq : st.channels.find? (fun p => p.1 == key) with
  | none => rfl
  | some q => rw [hq] at h; simp at h

theorem findChannel_freshState (cfg : CMConfig) (st : CMState) (rid : String)
    (h : findChannel st (buildChannelKey cfg rid) = none) :
    findChannel (freshState cfg st rid) (buildChannelKey cfg rid)
      = some ⟨st.nextId, []⟩ := by
  simp [findChannel, freshState, List.find?_append, find?_of_findChannel_none st _ h]

/-- The state left by a removing `cleanupIfEmpty`. -/
def removedState (st : CMState) (key : String) : CMState :=
  ⟨st.channels.filter (fun p => !(p.1 == key)), st.nextId⟩

theorem cleanupIfEmpty_of_empty (cfg : CMConfig) (st : CMState) (rid : String)
    (ch : SChannel) (h : findChannel st (buildChannelKey cfg rid) = some ch)
    (hs : ch.sessions = []) :
    cleanupIfEmpty cfg st rid = removedState st (buildChannelKey cfg rid) := by
  simp [cleanupIfEmpty, h, hs, removedState]

theorem findChannel_removedState (st : CMState) (key : String) :
    findChannel (removedState st key) key = none :=
  findChannel_filter_ne st key

theorem findChannel_mem (st : CMState) (key : String) (ch : SChannel)
    (h : findChannel st key = some ch) : ∃ q ∈ st.channels, q.2 = ch := by
  simp only [findChannel] at h
  cases hq : st.channels.find? (fun p => p.1 == key) with
  | none => rw [hq] at h; simp at h
  | some q =>
    rw [hq] at h
    exact ⟨q, List.mem_of_find?_eq_some hq, by simpa using h⟩

/-- C8: while a channel has not been cleaned up, repeated `getChannel`
calls for the same resource id return the identical instance (same id,
registry unchanged); after a `cleanupIfEmpty` that removes the channel
(its session set is empty), the next `getChannel` for the same resource id
returns a new instance whose identity differs from the original. -/
theorem getChannel_identity (cfg : CMConfig) (st : CMState) (rid : String) (hwf : Wf st) :
    getChannel cfg (getChannel cfg st rid).2 rid = getChannel cfg st rid
    ∧ ((getChannel cfg st rid).1.sessions = [] →
        (getChannel cfg (cleanupIfEmpty cfg (getChannel cfg st rid).2 rid) rid).1.id
          ≠ (getChannel cfg st rid).1.id) := by
  cases h : findChannel st (buildChannelKey cfg rid) with
  | some ch =>
    rw [getChannel_of_some cfg st rid ch h]
    refine ⟨getChannel_of_some cfg st rid ch h, ?_⟩
    intro hsess
    have hsess' : ch.sessions = [] := hsess
    show (getChannel cfg (cleanupIfEmpty cfg st rid) rid).1.id ≠ ch.id
    rw [cleanupIfEmpty_of_empty cfg st rid ch h hsess']
    rw [getChannel_of_none cfg _ rid (findChannel_removedState st _)]
    show st.nextId ≠ ch.id
    obtain ⟨q, hqmem, hqch⟩ := findChannel_mem st _ ch h
    have := hwf q hqmem
    rw [hqch] at this
    omega
  | none =>
    rw [getChannel_of_none cfg st rid h]
    have hfind1 := findChannel_freshState cfg st rid h
    refine ⟨getChannel_of_some cfg _ rid _ hfind1, ?_⟩
    intro _
    show (getChannel cfg (cleanupIfEmpty cfg (freshState cfg st rid) rid) rid).1.id
        ≠ st.nextId
    rw [cleanupIfEmpty_of_empty cfg _ rid _ hfind1 rfl]
    rw [getChannel_of_none cfg _ rid (findChannel_removedState _ _)]
    show (freshState cfg st rid).nextId ≠ st.nextId
    simp [freshState]

/-- Witness for C8 on the empty registry with prefix "discussion" and
suffix "comments". -/
theorem getChannel_identity_witness :
    getChannel ⟨"discussion", "comments"⟩
        (getChannel ⟨"discussion", "comments"⟩ ⟨[], 0⟩ "123").2 "123"
      = getChannel ⟨"discussion", "comments"⟩ ⟨[], 0⟩ "123"
    ∧ (getChannel ⟨"discussion", "comments"⟩
        (cleanupIfEmpty ⟨"discussion", "comments"⟩
          (getChannel ⟨"discussion", "comments"⟩ ⟨[], 0⟩ "123").2 "123") "123").1.id
      ≠ (getChannel ⟨"discussion", "comments"⟩ ⟨[], 0⟩ "123").1.id := by
  have hwf : Wf ⟨[], 0⟩ := by
    intro p hp
    simp at hp
  exact ⟨(getChannel_identity ⟨"discussion", "comments"⟩ ⟨[], 0⟩ "123" hwf).1,
         (getChannel_identity ⟨"discussion", "comments"⟩ ⟨[], 0⟩ "123" hwf).2 rfl⟩

/-- C9: `cleanupIfEmpty` removes the channel from the registry exactly
when a channel exists for the key and its active-session set is empty (the
removal deletes that key and preserves everything else); when the channel
has active sessions or no channel exists, the state is returned unchanged.
All branches are total — the operation never throws. -/
theorem cleanupIfEmpty_spec (cfg : CMConfig) (st : CMState) (rid : String) :
    (∀ ch, findChannel st (buildChannelKey cfg rid) = some ch → ch.sessions = [] →
        cleanupIfEmpty cfg st rid
          = ⟨st.channels.filter (fun p => !(p.1 == buildChannelKey cfg rid)), st.nextId⟩
        ∧ findChannel (cleanupIfEmpty cfg st rid) (buildChannelKey cfg rid) = none)
    ∧ (findChannel st (buildChannelKey cfg rid) = none → cleanupIfEmpty cfg st rid = st)
    ∧ (∀ ch, findChannel st (buildChannelKey cfg rid) = some ch → ch.sessions ≠ [] →
        cleanupIfEmpty cfg st rid = st) := by
  refine ⟨?_, ?_, ?_⟩
  · intro ch h hsess
    have hclean : cleanupIfEmpty cfg st rid
        = ⟨st.channels.filter (fun p => !(p.1 == buildChannelKey cfg rid)), st.nextId⟩ := by
      simp [cleanupIfEmpty, h, hsess]
    exact ⟨hclean, by rw [hclean]; exact findChannel_filter_ne st _⟩
  · intro h
    simp [cleanupIfEmpty, h]
  · intro ch h hsess
    have : ch.sessions.length ≠ 0 := by
      intro hlen
      exact hsess (List.length_eq_zero.mp hlen)
    simp [cleanupIfEmpty, h, this]

/-- Witness for C9: a registry holding one channel under key "r" — removed
when its session set is empty, untouched when it has a session, and
untouched on a key with no channel. -/
theorem cleanupIfEmpty_spec_witness :
    cleanupIfEmpty ⟨"", ""⟩ ⟨[("r", ⟨5, []⟩)], 6⟩ "r" = ⟨[], 6⟩
    ∧ cleanupIfEmpty ⟨"", ""⟩ ⟨[("r", ⟨5, [1]⟩)], 6⟩ "r" = ⟨[("r", ⟨5, [1]⟩)], 6⟩
    ∧ cleanupIfEmpty ⟨"", ""⟩ ⟨[("r", ⟨5, []⟩)], 6⟩ "missing" = ⟨[("r", ⟨5, []⟩)], 6⟩ := by
  refine ⟨?_, ?_, ?_⟩
  · have h := (cleanupIfEmpty_spec ⟨"", ""⟩ ⟨[("r", ⟨5, []⟩)], 6⟩ "r").1 ⟨5, []⟩
      (by decide) rfl
    rw [h.1]
    decide
  · exact (cleanupIfEmpty_spec ⟨"", ""⟩ ⟨[("r", ⟨5, [1]⟩)], 6⟩ "r").2.2 ⟨5, [1]⟩
      (by decide) (by decide)
  · exact (cleanupIfEmpty_spec ⟨"", ""⟩ ⟨[("r", ⟨5, []⟩)], 6⟩ "missing").2.1 (by decide)

end ChannelManager

namespace ReactQuery

/-!
Model of the `onEvent` handler built by `useSSEQueryInvalidation`
(`src/client/hooks/useSSEQueryInvalidation.ts`, the current version with
the empty-keys guard).  We model what the handler observably does per
received event: the list of `queryClient.invalidateQueries({ queryKey })`
calls it makes.  A JavaScript query-key value is a tree of scalars and
arrays (`JKey`); `keysToInvalidate` may be `undefined`/`null` (modelled by
`Option.none`, the `!keysToInvalidate` guard) or an array.
-/

inductive JKey where
  | scalar (s : String)
  | arr (ks : List JKey)

/-- The `queryKeys` option: either a static value or a function of the
event (`typeof queryKeys === "function"`). -/
inductive QueryKeysSpec (ε : Type) where
  | static (ks : Option (List JKey))
  | dyn (f : ε → Option (List JKey))

/-- Source `typeof queryKeys === "function" ? queryKeys(event) : queryKeys`. -/
def resolveKeys {ε : Type} : QueryKeysSpec ε → ε → Option (List JKey)
  | .static ks, _ => ks
  | .dyn f, ev => f ev

/-- Source `Array.isArray`. -/
def isArr : JKey → Bool
  | .arr _ => true
  | .scalar _ => false

/-- The guarded `onEvent` body: returns the queryKeys of the
`invalidateQueries` calls made for one event.
`if (!keysToInvalidate || keysToInvalidate.length === 0) return;` then
`Array.isArray(keysToInvalidate[0])` decides between an array of keys
(one call per element) and a single key (one call with the whole array). -/
def onEventInvalidations (keys : Option (List JKey)) : List JKey :=
  match keys with
  | none => []
  | some ks =>
    if ks.length = 0 then []
    else
      match ks with
      | [] => []
      | k0 :: rest => if isArr k0 then k0 :: rest else [JKey.arr (k0 :: rest)]

/-- The calls `useSSEQueryInvalidation` makes for one received event. -/
def useSSEQueryInvalidation_calls {ε : Type} (q : QueryKeysSpec ε) (ev : ε) : List JKey :=
  onEventInvalidations (resolveKeys q ev)

/-- For the record: the older copy of the hook without the guard.  On an
empty `keysToInvalidate`, `keysToInvalidate[0]` is `undefined`, which is
not an array, so `keyArray = [keysToInvalidate] = [[]]` and one
`invalidateQueries({ queryKey: [] })` call is made — the empty key is a
prefix of every query key, i.e. the entire cache is invalidated.  The
guard in the current version exists precisely to prevent this. -/
def onEventInvalidationsUnguarded (ks : List JKey) : List JKey :=
  match ks with
  | [] => [JKey.arr []]
  | k0 :: rest => if isArr k0 then k0 :: rest else [JKey.arr (k0 :: rest)]

/-- C3: whenever the configured `queryKeys` (static, or the result of the
`queryKeys` function on the event) is absent or the empty list, the
handler makes zero invalidation calls — the whole cache is never
invalidated on empty input. -/
theorem no_invalidation_on_empty_keys {ε : Type} (q : QueryKeysSpec ε) (ev : ε)
    (h : resolveKeys q ev = none ∨ resolveKeys q ev = some []) :
    useSSEQueryInvalidation_calls q ev = [] := by
  unfold useSSEQueryInvalidation_calls
  rcases h with h | h <;> rw [h] <;> rfl

/-- Witness for C3: a `queryKeys` function returning the empty list on a
concrete event makes zero invalidation calls. -/
theorem no_invalidation_on_empty_keys_witness :
    useSSEQueryInvalidation_calls (QueryKeysSpec.dyn (fun _ : ℕ => some [])) 42 = [] :=
  no_invalidation_on_empty_keys (QueryKeysSpec.dyn (fun _ : ℕ => some [])) 42 (Or.inr rfl)

end ReactQuery

namespace AutoReconnect

/-!
Model of `useAutoReconnectStream` (`src/client/hooks/useAutoReconnectStream.ts`).

The React state of the hook (`isConnected`, `isReconnecting`, `reconnectAttempt`,
`error`), its refs (`currentAttemptRef`, the signal of the current
`AbortController` as `aborted`, `reconnectTimeoutRef` as `timerArmed`) and the
number of `streamFn` invocations (`calls`) are flattened into one record
`RState`.  Every user-visible callback invocation is appended to `log`,
and each `streamFn` invocation is logged as `factoryCall` (a `Connecting`
transition).  Items and errors are `ℕ` codes.  Timers are abstracted to
the `timerArmed` flag: the scheduled delay (computed by
`calculateBackoffWithJitter`) affects only when the timer callback runs,
never which transitions occur, so the driver `runLoop` fires a pending
timer immediately (its `isMounted && shouldStream` check holds throughout
a driver run).

The effect re-run semantics matter: the dependency list of the effect
(lines 250-264 of the source) contains `shouldStream`, the options and the
callbacks, but not `reconnectAttempt` or `error`, so the state updates
performed by the manual `reconnect()` do not re-run the effect;
`reconnect()` is modelled as the pure `reconnectOp`, and an effect re-run
(dependency change, e.g. a visibility flip toggling `shouldStream`) as
`effectCleanup` followed by the new effect body.
-/

/-- Observable callback events, in invocation order. -/
inductive Cb where
  | factoryCall (idx : ℕ)
  | onData (item : ℕ) (attempt : ℕ)
  | onConnect
  | onDisconnect
  | onError (e : ℕ) (attempt : ℕ)
  | onMaxRetriesReached (e : ℕ)
deriving DecidableEq

structure RState where
  isConnected : Bool
  isReconnecting : Bool
  reconnectAttempt : ℕ
  error : Option ℕ
  currentAttempt : ℕ
  timerArmed : Bool
  aborted : Bool
  calls : ℕ
  log : List Cb
deriving DecidableEq

/-- Hook options relevant to the retry decision: `maxRetries`
(`none` = the default `Infinity`) and the optional `shouldRetry`
predicate on (error, attempt). -/
structure RCfg where
  maxRetries : Option ℕ
  shouldRetry : Option (ℕ → ℕ → Bool)

/-- What one invocation of the stream factory does in a scenario. -/
inductive Outcome where
  | fail (e : ℕ)
  | stayOpen (xs : List ℕ)
  | endGracefully (xs : List ℕ)

def initState : RState :=
  ⟨false, false, 0, none, 0, false, false, 0, []⟩

/-- Source `currentAttemptRef.current < maxRetries` (`Infinity` compares true). -/
def belowMaxRetries (a : ℕ) : Option ℕ → Bool
  | none => true
  | some m => a < m

/-- Source `shouldRetry?.(error, attempt) ?? true`. -/
def shouldRetryEval (cfg : RCfg) (e a : ℕ) : Bool :=
  match cfg.shouldRetry with
  | some f => f e a
  | none => true

/-- Source `scheduleReconnect`: `setIsReconnecting(true)`, increment the attempt
ref, compute the backoff delay and arm the timeout. -/
def scheduleReconnect (st : RState) : RState :=
  { st with isReconnecting := true, currentAttempt := st.currentAttempt + 1,
            timerArmed := true }

/-- The code after the `for await` loop exits (by graceful stream end or
by the `break` on abort/unmount):
`if (isMounted && !combinedSignal.aborted && shouldStream) { setIsConnected(false); onDisconnect?.(); scheduleReconnect(); }`. -/
def resumeLoopEnd (isMounted aborted shouldStream : Bool) (st : RState) : RState :=
  if isMounted && !aborted && shouldStream then
    scheduleReconnect { st with isConnected := false, log := st.log ++ [Cb.onDisconnect] }
  else st

/-- The `catch` block of `connectToStream`, reached when the factory or the
stream throws: `if (!isMounted || combinedSignal.aborted) return;` then
`setError`, `setIsConnected(false)`, `onDisconnect`, `onError`, and the
retry decision
`if (customShouldRetry && belowMaxRetries && shouldStream) scheduleReconnect()
 else if (!belowMaxRetries) onMaxRetriesReached?.(error)`. -/
def handleError (cfg : RCfg) (shouldStream : Bool) (st : RState) (e : ℕ) : RState :=
  let st1 := { st with error := some e, isConnected := false,
                       log := st.log ++ [Cb.onDisconnect, Cb.onError e st.currentAttempt] }
  if shouldRetryEval cfg e st.currentAttempt
      && belowMaxRetries st.currentAttempt cfg.maxRetries && shouldStream then
    scheduleReconnect st1
  else if !(belowMaxRetries st.currentAttempt cfg.maxRetries) then
    { st1 with log := st1.log ++ [Cb.onMaxRetriesReached e] }
  else st1

/-- The prefix of `connectToStream` up to and including the `streamFn`
call: a fresh `AbortController`, `setIsConnected(false)`, `setError(null)`,
and the factory invocation (logged as the `Connecting` transition). -/
def beginConnect (st : RState) : RState :=
  { st with aborted := false, isConnected := false, error := none,
            calls := st.calls + 1, log := st.log ++ [Cb.factoryCall st.calls] }

/-- Source `setIsConnected(true)`, `setIsReconnecting(false)`,
`setReconnectAttempt(currentAttemptRef.current)`, `onConnect?.()`. -/
def connectSuccess (st : RState) : RState :=
  { st with isConnected := true, isReconnecting := false,
            reconnectAttempt := st.currentAttempt, log := st.log ++ [Cb.onConnect] }

/-- The `for await` loop delivering each item to
`onData(event, { reconnectAttempt: currentAttemptRef.current })`. -/
def deliverItems (st : RState) (xs : List ℕ) : RState :=
  { st with log := st.log ++ xs.map (fun x => Cb.onData x st.currentAttempt) }

/-- The rest of `connectToStream` after the factory call resolves, in a
run where the controller stays mounted, unaborted and streaming. -/
def handleOutcome (cfg : RCfg) (shouldStream : Bool) : Outcome → RState → RState
  | .fail e, st => handleError cfg shouldStream st e
  | .stayOpen xs, st => deliverItems (connectSuccess st) xs
  | .endGracefully xs, st =>
      resumeLoopEnd true false shouldStream (deliverItems (connectSuccess st) xs)

/-- One `connectToStream()` call with the `idx`-th factory outcome scripted
by `script` (the guard `if (!shouldStream) return;` included). -/
def connectOnce (cfg : RCfg) (script : ℕ → Outcome) (shouldStream : Bool)
    (st : RState) : RState :=
  if shouldStream then handleOutcome cfg shouldStream (script st.calls) (beginConnect st)
  else st

/-- Driver: run `connectToStream` and keep firing the armed reconnect
timer (whose callback re-invokes `connectToStream`) until no timer is
armed or the fuel runs out.  Models a mounted, enabled, visible
controller. -/
def runLoop (cfg : RCfg) (script : ℕ → Outcome) : ℕ → RState → RState
  | 0, st => st
  | Nat.succ fuel, st =>
      let st1 := connectOnce cfg script true st
      if st1.timerArmed then runLoop cfg script fuel { st1 with timerArmed := false }
      else st1

/-- A controller mounted with `enabled = true` on a visible page: the
effect body runs `connectToStream()`, and timers then drive it. -/
def runController (cfg : RCfg) (script : ℕ → Outcome) (fuel : ℕ) : RState :=
  runLoop cfg script fuel initState

/-- The effect cleanup: `isMounted = false` for the old closure (passed
separately to the `resume*` functions), abort the current controller,
clear the pending timeout. -/
def effectCleanup (st : RState) : RState :=
  { st with aborted := true, timerArmed := false }

/-- The effect body when `shouldStream` is false: `setIsConnected(false)`,
`setIsReconnecting(false)`, abort any active connection. -/
def effectBodyOff (st : RState) : RState :=
  { st with isConnected := false, isReconnecting := false, aborted := true }

/-- Visibility loss with `pauseOnHidden` (or `enabled` flipping false):
`shouldStream` is a dependency, so the effect re-runs — old cleanup, then
the `!shouldStream` body. -/
def goInactive (st : RState) : RState :=
  effectBodyOff (effectCleanup st)

/-- Visibility (or enablement) returning: the effect re-runs — cleanup of
the parked effect, then the body calls `connectToStream`, whose prefix up
to the factory call is `beginConnect` (a fresh `Connecting` phase). -/
def goActive (st : RState) : RState :=
  beginConnect (effectCleanup st)

/-- Resumption of a pending factory/stream failure in a closure whose
`isMounted`/`aborted` flags are given: the early return of the `catch` block. -/
def resumeFail (isMounted aborted : Bool) (cfg : RCfg) (shouldStream : Bool)
    (st : RState) (e : ℕ) : RState :=
  if !isMounted || aborted then st else handleError cfg shouldStream st e

/-- The manual `reconnect()`: abort the current connection, clear the
pending timeout, reset the attempt ref and the `reconnectAttempt` and
`error` states.  It performs no other action; in particular it neither
calls `connectToStream` nor re-runs the effect (no dependency of the effect
changes). -/
def reconnectOp (st : RState) : RState :=
  { st with aborted := true, timerArmed := false, currentAttempt := 0,
            reconnectAttempt := 0, error := none }

def isMaxRetriesCb : Cb → Bool
  | .onMaxRetriesReached _ => true
  | _ => false

/-- C4: with a factory failing immediately on its first 3 invocations and
succeeding on the 4th, `maxRetries = 5` ends Connected with reported
reconnect attempt 3 (and `onMaxRetriesReached` never fires), while
`maxRetries = 2` ends Stopped (disconnected, no timer armed, after 3
factory calls) with `onMaxRetriesReached` fired exactly once. -/
theorem retry_scenario :
    (runController ⟨some 5, none⟩
        (fun n => if n < 3 then Outcome.fail 7 else Outcome.stayOpen []) 10).isConnected
      = true
    ∧ (runController ⟨some 5, none⟩
        (fun n => if n < 3 then Outcome.fail 7 else Outcome.stayOpen []) 10).reconnectAttempt
      = 3
    ∧ (runController ⟨some 5, none⟩
        (fun n => if n < 3 then Outcome.fail 7 else Outcome.stayOpen []) 10).log.countP
          isMaxRetriesCb
      = 0
    ∧ (runController ⟨some 2, none⟩
        (fun n => if n < 3 then Outcome.fail 7 else Outcome.stayOpen []) 10).isConnected
      = false
    ∧ (runController ⟨some 2, none⟩
        (fun n => if n < 3 then Outcome.fail 7 else Outcome.stayOpen []) 10).timerArmed
      = false
    ∧ (runController ⟨some 2, none⟩
        (fun n => if n < 3 then Outcome.fail 7 else Outcome.stayOpen []) 10).log.countP
          isMaxRetriesCb
      = 1 := by
  decide

/-- C5 as stated is false on the code: when the `shouldRetry` predicate
returns `false` at an attempt that has already reached `maxRetries`, the
`else if (!belowMaxRetries)` branch still invokes `onMaxRetriesReached`.
Concretely, with `maxRetries = 0` and a constantly-false predicate, the
first stream error makes the predicate return `false`, yet
`onMaxRetriesReached` is invoked. -/
theorem shouldRetry_false_still_fires_maxRetries :
    shouldRetryEval ⟨some 0, some (fun _ _ => false)⟩ 7 initState.currentAttempt = false
    ∧ (handleError ⟨some 0, some (fun _ _ => false)⟩ true initState 7).log
      = [Cb.onDisconnect, Cb.onError 7 0, Cb.onMaxRetriesReached 7] := by
  decide

/-- C5 (amended): on a stream error, `onMaxRetriesReached` fires exactly
when the attempt count has reached `maxRetries`, regardless of the
predicate; and when the predicate returns `false` while the attempt count
is still below `maxRetries`, the controller stops — disconnected, no
reconnect scheduled (timer unchanged, hence not armed) — without invoking
`onMaxRetriesReached`. -/
theorem handleError_stop_semantics (cfg : RCfg) (ss : Bool) (st : RState) (e : ℕ) :
    (handleError cfg ss st e).log
      = st.log ++ [Cb.onDisconnect, Cb.onError e st.currentAttempt]
          ++ (if belowMaxRetries st.currentAttempt cfg.maxRetries then []
              else [Cb.onMaxRetriesReached e])
    ∧ (shouldRetryEval cfg e st.currentAttempt = false →
        belowMaxRetries st.currentAttempt cfg.maxRetries = true →
        (handleError cfg ss st e).isConnected = false
        ∧ (handleError cfg ss st e).timerArmed = st.timerArmed
        ∧ (handleError cfg ss st e).isReconnecting = st.isReconnecting) := by
  by_cases hr : shouldRetryEval cfg e st.currentAttempt
    <;> by_cases hb : belowMaxRetries st.currentAttempt cfg.maxRetries
    <;> by_cases hss : ss
    <;> simp [handleError, hr, hb, hss, scheduleReconnect]

/-- Witness for C5 (amended): a predicate returning `false` below the cap
stops the controller without arming a timer. -/
theorem handleError_stop_semantics_witness :
    (handleError ⟨some 5, some (fun _ _ => false)⟩ true initState 7).isConnected = false
    ∧ (handleError ⟨some 5, some (fun _ _ => false)⟩ true initState 7).timerArmed
      = initState.timerArmed
    ∧ (handleError ⟨some 5, some (fun _ _ => false)⟩ true initState 7).isReconnecting
      = initState.isReconnecting :=
  (handleError_stop_semantics ⟨some 5, some (fun _ _ => false)⟩ true initState 7).2
    (by decide) (by decide)

/-- C6: when the context goes inactive (`shouldStream` flips false, the
effect re-runs), the in-flight stream is aborted and the pending backoff
timer cleared, the attempt counter is unchanged and no callback fires (the
error path of the interrupted connection and post-loop path both return without
effect, since the old closure is unmounted and its signal aborted); when
the context becomes active again the effect re-runs and a fresh
`Connecting` phase begins — the factory is invoked — with the attempt
counter still unchanged (not reset). -/
theorem visibility_pause_resume (st : RState) (e : ℕ) (cfg : RCfg) :
    (goInactive st).aborted = true
    ∧ (goInactive st).timerArmed = false
    ∧ (goInactive st).currentAttempt = st.currentAttempt
    ∧ (goInactive st).log = st.log
    ∧ resumeFail false true cfg true (goInactive st) e = goInactive st
    ∧ resumeLoopEnd false true true (goInactive st) = goInactive st
    ∧ (goActive (goInactive st)).log = st.log ++ [Cb.factoryCall st.calls]
    ∧ (goActive (goInactive st)).currentAttempt = st.currentAttempt
    ∧ (goActive (goInactive st)).isConnected = false
    ∧ (goActive (goInactive st)).error = none :=
  ⟨rfl, rfl, rfl, rfl, rfl, rfl, rfl, rfl, rfl, rfl⟩

/-- C1 fails on the code: `reconnect()` aborts the in-flight connection,
clears the pending timer and resets `attempt`/`error`, but it does not
start a new connection.  No dependency of the effect changes (the
dependency list has the options and callbacks but not `reconnectAttempt`
or `error`), so the effect does not re-run; the loop of the aborted stream
exits through the `break`, and the post-loop block is skipped because the
signal is aborted.  Concretely: a controller that connected on its first
attempt, after `reconnect()` and the exit of the aborted stream, has made no
new factory call (no new `Connecting`), nothing is pending, and even
`isConnected` still reads `true`. -/
theorem reconnect1_no_new_connection :
    (runController ⟨none, none⟩ (fun _ => Outcome.stayOpen []) 1).isConnected = true
    ∧ (resumeLoopEnd true true true
        (reconnectOp (runController ⟨none, none⟩ (fun _ => Outcome.stayOpen []) 1))).log
      = (runController ⟨none, none⟩ (fun _ => Outcome.stayOpen []) 1).log
    ∧ (resumeLoopEnd true true true
        (reconnectOp (runController ⟨none, none⟩ (fun _ => Outcome.stayOpen []) 1))).timerArmed
      = false
    ∧ (resumeLoopEnd true true true
        (reconnectOp (runController ⟨none, none⟩ (fun _ => Outcome.stayOpen []) 1))).aborted
      = true
    ∧ (resumeLoopEnd true true true
        (reconnectOp (runController ⟨none, none⟩ (fun _ => Outcome.stayOpen []) 1))).isConnected
      = true := by
  decide

/-- C1 (amended): `reconnect()` cancels the in-flight connection and any
pending backoff timer and resets the attempt counter to 0 and the stored
error to null, without invoking any callback; it does not itself begin a
new connection — a fresh `Connecting` phase (a factory call, at attempt 0)
begins only when the effect next re-runs, i.e. when a dependency changes
or the hook remounts. -/
theorem reconnect1_semantics (st : RState) :
    (reconnectOp st).aborted = true
    ∧ (reconnectOp st).timerArmed = false
    ∧ (reconnectOp st).currentAttempt = 0
    ∧ (reconnectOp st).reconnectAttempt = 0
    ∧ (reconnectOp st).error = none
    ∧ (reconnectOp st).log = st.log
    ∧ (goActive (reconnectOp st)).log = st.log ++ [Cb.factoryCall st.calls]
    ∧ (goActive (reconnectOp st)).currentAttempt = 0 :=
  ⟨rfl, rfl, rfl, rfl, rfl, rfl, rfl, rfl⟩

end AutoReconnect
